import Mathlib

/-!
Shallow embedding of `services/taxService.ts` from the Income-Journal
repository.  The repository's history contains two materially different
bodies for the exported function `calculateNorwegianTax`:

* a multi-component 2024 formulation (social-security contribution +
  general income tax + progressive bracket tax), embedded here as
  `calculateNorwegianTaxV1`, and
* a later flat marginal-bracket formulation (a single if/else-if chain of
  combined marginal rates), embedded here as `calculateNorwegianTaxV2`.

JavaScript numbers are modelled as exact rationals (`ℚ`); `Math.round` is
modelled as `jsRound x = ⌊x + 1/2⌋` (round half toward positive infinity,
which is `Math.round`'s behaviour), and the source's `Infinity` bracket
limit is modelled as `none : Option ℚ` (so `Math.min g Infinity = g` and
`g > Infinity` is false).
-/

namespace IncomeJournal

/-- JavaScript `Math.round`: round to the nearest integer, halves toward
positive infinity. -/
def jsRound (x : ℚ) : ℤ := ⌊x + 1/2⌋

/-- One entry of the `progressiveTaxBreakdown` list
(`{ bracket: string; tax: number }`). -/
structure BreakdownEntry where
  bracket : String
  tax : ℚ
deriving DecidableEq

/-- The `details` field of `TaxCalculationResult`. -/
structure TaxDetails where
  projectedGross : ℚ
  socialSecurityContribution : ℚ
  generalTaxableIncome : ℚ
  generalTax : ℚ
  progressiveTax : ℚ
  progressiveTaxBreakdown : List BreakdownEntry
deriving DecidableEq

/-- The result interface `TaxCalculationResult` of `taxService.ts`. -/
structure TaxCalculationResult where
  totalTax : ℚ
  details : TaxDetails
deriving DecidableEq

/-- Trygdeavgift rate (`SOCIAL_SECURITY_RATE = 0.079`). -/
def SOCIAL_SECURITY_RATE : ℚ := 0.079

/-- General income tax rate (`GENERAL_TAX_RATE = 0.22`). -/
def GENERAL_TAX_RATE : ℚ := 0.22

/-- Personfradrag (`PERSONAL_ALLOWANCE = 88250`). -/
def PERSONAL_ALLOWANCE : ℚ := 88250

/-- Minstefradrag rate (`STANDARD_DEDUCTION_RATE = 0.46`). -/
def STANDARD_DEDUCTION_RATE : ℚ := 0.46

/-- Minstefradrag cap (`STANDARD_DEDUCTION_MAX = 104450`). -/
def STANDARD_DEDUCTION_MAX : ℚ := 104450

/-- A progressive-tax bracket `{ limit, rate }`; `limit = none` encodes the
source's `Infinity`. -/
structure TaxBracket where
  limit : Option ℚ
  rate : ℚ
deriving DecidableEq

/-- `PROGRESSIVE_TAX_BRACKETS` (Trinnskatt steps of the 2024 formulation). -/
def PROGRESSIVE_TAX_BRACKETS : List TaxBracket :=
  [⟨some 208050, 0⟩,
   ⟨some 292850, 0.017⟩,
   ⟨some 670000, 0.040⟩,
   ⟨some 937900, 0.136⟩,
   ⟨some 1350000, 0.176⟩,
   ⟨none, 0.178⟩]

/-- `Math.min x limit` where `limit` may be the source's `Infinity`. -/
def minInf (x : ℚ) : Option ℚ → ℚ
  | none => x
  | some y => min x y

/-- The breakdown label `Krok ${i} (${(rate*100).toFixed(1)}%)`; the
percentage is rendered with one decimal digit as in `Number.toFixed(1)`
(all rates in the table are exact multiples of 0.001, so `toFixed(1)` is
exact here). -/
def krokLabel (idx : ℕ) (rate : ℚ) : String :=
  let tenths : ℤ := jsRound (rate * 1000)
  "Krok " ++ toString idx ++ " (" ++ toString (tenths / 10) ++ "." ++
    toString (tenths % 10) ++ "%)"

/-- The mutable state of the `for (const bracket of PROGRESSIVE_TAX_BRACKETS)`
loop: `progressiveTax`, `lastLimit` (which the loop assigns the previous
bracket's `limit`, possibly `Infinity` on the final, dead assignment) and the
accumulated `progressiveTaxBreakdown`. -/
structure ProgState where
  progressiveTax : ℚ
  lastLimit : Option ℚ
  breakdown : List BreakdownEntry
deriving DecidableEq

/-- One iteration of the progressive-tax loop, for the bracket at position
`idx`.  When `lastLimit` is `Infinity` the guard `g > lastLimit` is false and
the state only records the new `lastLimit`. -/
def progStep (g : ℚ) (idx : ℕ) (b : TaxBracket) (st : ProgState) : ProgState :=
  match st.lastLimit with
  | none => { st with lastLimit := b.limit }
  | some ll =>
    if ll < g then
      let taxableInBracket := minInf g b.limit - ll
      if 0 < taxableInBracket ∧ 0 < b.rate then
        { progressiveTax := st.progressiveTax + taxableInBracket * b.rate,
          lastLimit := b.limit,
          breakdown :=
            st.breakdown ++ [⟨krokLabel idx b.rate, taxableInBracket * b.rate⟩] }
      else { st with lastLimit := b.limit }
    else { st with lastLimit := b.limit }

/-- The whole loop, iterated over the remaining brackets, tracking the
position `idx` of the current bracket (used only for the label, mirroring
`PROGRESSIVE_TAX_BRACKETS.indexOf(bracket)`). -/
def progLoop (g : ℚ) : ℕ → List TaxBracket → ProgState → ProgState
  | _, [], st => st
  | idx, b :: bs, st => progLoop g (idx + 1) bs (progStep g idx b st)

/-- First historical formulation of `calculateNorwegianTax` (2024
multi-component model: Trygdeavgift + Skatt på alminnelig inntekt +
Trinnskatt). -/
def calculateNorwegianTaxV1 (projectedGrossIncome : ℚ) : TaxCalculationResult :=
  if projectedGrossIncome ≤ 0 then
    { totalTax := 0,
      details :=
        { projectedGross := 0,
          socialSecurityContribution := 0,
          generalTaxableIncome := 0,
          generalTax := 0,
          progressiveTax := 0,
          progressiveTaxBreakdown := [] } }
  else
    let socialSecurityContribution := projectedGrossIncome * SOCIAL_SECURITY_RATE
    let standardDeduction :=
      min (projectedGrossIncome * STANDARD_DEDUCTION_RATE) STANDARD_DEDUCTION_MAX
    let generalTaxableIncomeBase :=
      projectedGrossIncome - standardDeduction - PERSONAL_ALLOWANCE
    let generalTaxableIncome := max 0 generalTaxableIncomeBase
    let generalTax := generalTaxableIncome * GENERAL_TAX_RATE
    let finalState := progLoop projectedGrossIncome 0 PROGRESSIVE_TAX_BRACKETS ⟨0, some 0, []⟩
    let progressiveTax := finalState.progressiveTax
    let totalTax := socialSecurityContribution + generalTax + progressiveTax
    { totalTax := (jsRound totalTax : ℤ),
      details :=
        { projectedGross := projectedGrossIncome,
          socialSecurityContribution := (jsRound socialSecurityContribution : ℤ),
          generalTaxableIncome := (jsRound generalTaxableIncome : ℤ),
          generalTax := (jsRound generalTax : ℤ),
          progressiveTax := (jsRound progressiveTax : ℤ),
          progressiveTaxBreakdown := finalState.breakdown } }

/-- Second historical formulation of `calculateNorwegianTax` (flat combined
marginal-bracket if/else-if chain from the user-provided Excel formula). -/
def calculateNorwegianTaxV2 (projectedGrossIncome : ℚ) : TaxCalculationResult :=
  if projectedGrossIncome ≤ 0 then
    { totalTax := 0,
      details :=
        { projectedGross := 0,
          socialSecurityContribution := 0,
          generalTaxableIncome := 0,
          generalTax := 0,
          progressiveTax := 0,
          progressiveTaxBreakdown := [] } }
  else
    let totalTax :=
      if projectedGrossIncome ≤ 198349 then
        projectedGrossIncome * 0.22
      else if projectedGrossIncome ≤ 279149 then
        198349 * 0.22 + (projectedGrossIncome - 198349) * 0.237
      else if projectedGrossIncome ≤ 642949 then
        198349 * 0.22 + (279149 - 198349) * 0.237 +
          (projectedGrossIncome - 279149) * 0.26
      else if projectedGrossIncome ≤ 926799 then
        198349 * 0.22 + (279149 - 198349) * 0.237 + (642949 - 279149) * 0.26 +
          (projectedGrossIncome - 642949) * 0.355
      else if projectedGrossIncome ≤ 1499999 then
        198349 * 0.22 + (279149 - 198349) * 0.237 + (642949 - 279149) * 0.26 +
          (926799 - 642949) * 0.355 + (projectedGrossIncome - 926799) * 0.385
      else
        198349 * 0.22 + (279149 - 198349) * 0.237 + (642949 - 279149) * 0.26 +
          (926799 - 642949) * 0.355 + (1499999 - 926799) * 0.385 +
          (projectedGrossIncome - 1499999) * 0.175
    { totalTax := (jsRound totalTax : ℤ),
      details :=
        { projectedGross := projectedGrossIncome,
          socialSecurityContribution := 0,
          generalTaxableIncome := 0,
          generalTax := 0,
          progressiveTax := 0,
          progressiveTaxBreakdown := [] } }

/-!
Closed forms of the quantities computed by the two formulations, used to
state and prove the claims.  Each is read off the corresponding source
expression.
-/

/-- Raw (unrounded) Trygdeavgift: `projectedGrossIncome * SOCIAL_SECURITY_RATE`. -/
def ssRaw (g : ℚ) : ℚ := g * SOCIAL_SECURITY_RATE

/-- Raw Minstefradrag: `Math.min(g * STANDARD_DEDUCTION_RATE, STANDARD_DEDUCTION_MAX)`. -/
def standardDeductionRaw (g : ℚ) : ℚ :=
  min (g * STANDARD_DEDUCTION_RATE) STANDARD_DEDUCTION_MAX

/-- Raw general taxable income: `Math.max(0, g - standardDeduction - PERSONAL_ALLOWANCE)`. -/
def gtiRaw (g : ℚ) : ℚ := max 0 (g - standardDeductionRaw g - PERSONAL_ALLOWANCE)

/-- Raw general income tax: `generalTaxableIncome * GENERAL_TAX_RATE`. -/
def gtRaw (g : ℚ) : ℚ := gtiRaw g * GENERAL_TAX_RATE

/-- The slice of income `g` that falls between `lo` and `hi`:
`max 0 (min g hi - lo)`. -/
def slice (g lo hi : ℚ) : ℚ := max 0 (min g hi - lo)

/-- The slice of income `g` above `lo` (unbounded top bracket). -/
def sliceTop (g lo : ℚ) : ℚ := max 0 (g - lo)

/-- Raw progressive tax (Trinnskatt) of the first formulation, as the
marginal sum over its bracket table. -/
def progRaw (g : ℚ) : ℚ :=
  slice g 208050 292850 * 0.017 + slice g 292850 670000 * 0.040 +
    slice g 670000 937900 * 0.136 + slice g 937900 1350000 * 0.176 +
    sliceTop g 1350000 * 0.178

/-- Raw total of the first formulation before rounding. -/
def pre1 (g : ℚ) : ℚ := ssRaw g + gtRaw g + progRaw g

/-- Closed form of the `progressiveTaxBreakdown` list produced by the first
formulation's loop for `0 < g`: one entry per bracket with positive rate
whose lower bound is exceeded, holding the unrounded bracket tax. -/
def breakdown1 (g : ℚ) : List BreakdownEntry :=
  (if 208050 < g then [⟨krokLabel 1 0.017, (min g 292850 - 208050) * 0.017⟩] else []) ++
    (if 292850 < g then [⟨krokLabel 2 0.040, (min g 670000 - 292850) * 0.040⟩] else []) ++
    (if 670000 < g then [⟨krokLabel 3 0.136, (min g 937900 - 670000) * 0.136⟩] else []) ++
    (if 937900 < g then [⟨krokLabel 4 0.176, (min g 1350000 - 937900) * 0.176⟩] else []) ++
    (if 1350000 < g then [⟨krokLabel 5 0.178, (g - 1350000) * 0.178⟩] else [])

/-- The progressive-tax loop of the first formulation computes exactly the
marginal sum `progRaw` and the breakdown list `breakdown1`. -/
lemma progLoop_eq (g : ℚ) (hg : 0 < g) :
    progLoop g 0 PROGRESSIVE_TAX_BRACKETS ⟨0, some 0, []⟩ =
      ⟨progRaw g, none, breakdown1 g⟩ := by
  rcases le_or_lt g 208050 with h1 | h1
  · have n2 : ¬ ((208050:ℚ) < g) := not_lt.2 h1
    have n3 : ¬ ((292850:ℚ) < g) := by push_neg; linarith
    have n4 : ¬ ((670000:ℚ) < g) := by push_neg; linarith
    have n5 : ¬ ((937900:ℚ) < g) := by push_neg; linarith
    have n6 : ¬ ((1350000:ℚ) < g) := by push_neg; linarith
    have e1 : min g (292850:ℚ) = g := min_eq_left (by linarith)
    have e2 : min g (670000:ℚ) = g := min_eq_left (by linarith)
    have e3 : min g (937900:ℚ) = g := min_eq_left (by linarith)
    have e4 : min g (1350000:ℚ) = g := min_eq_left (by linarith)
    have m1 : max (0:ℚ) (g - 208050) = 0 := max_eq_left (by linarith)
    have m2 : max (0:ℚ) (g - 292850) = 0 := max_eq_left (by linarith)
    have m3 : max (0:ℚ) (g - 670000) = 0 := max_eq_left (by linarith)
    have m4 : max (0:ℚ) (g - 937900) = 0 := max_eq_left (by linarith)
    have m5 : max (0:ℚ) (g - 1350000) = 0 := max_eq_left (by linarith)
    norm_num [PROGRESSIVE_TAX_BRACKETS, progLoop, progStep, minInf, breakdown1,
      progRaw, slice, sliceTop, hg, n2, n3, n4, n5, n6, e1, e2, e3, e4,
      m1, m2, m3, m4, m5]
  · rcases le_or_lt g 292850 with h2 | h2
    · have n3 : ¬ ((292850:ℚ) < g) := not_lt.2 h2
      have n4 : ¬ ((670000:ℚ) < g) := by push_neg; linarith
      have n5 : ¬ ((937900:ℚ) < g) := by push_neg; linarith
      have n6 : ¬ ((1350000:ℚ) < g) := by push_neg; linarith
      have e0 : min g (208050:ℚ) = 208050 := min_eq_right (le_of_lt h1)
      have e1 : min g (292850:ℚ) = g := min_eq_left h2
      have e2 : min g (670000:ℚ) = g := min_eq_left (by linarith)
      have e3 : min g (937900:ℚ) = g := min_eq_left (by linarith)
      have e4 : min g (1350000:ℚ) = g := min_eq_left (by linarith)
      have t1 : (0:ℚ) < g - 208050 := by linarith
      have mm1 : max (0:ℚ) (g - 208050) = g - 208050 := max_eq_right (by linarith)
      have m2 : max (0:ℚ) (g - 292850) = 0 := max_eq_left (by linarith)
      have m3 : max (0:ℚ) (g - 670000) = 0 := max_eq_left (by linarith)
      have m4 : max (0:ℚ) (g - 937900) = 0 := max_eq_left (by linarith)
      have m5 : max (0:ℚ) (g - 1350000) = 0 := max_eq_left (by linarith)
      norm_num [PROGRESSIVE_TAX_BRACKETS, progLoop, progStep, minInf, breakdown1,
        progRaw, slice, sliceTop, hg, h1, n3, n4, n5, n6, e0, e1, e2, e3, e4,
        t1, mm1, m2, m3, m4, m5]
    · rcases le_or_lt g 670000 with h3 | h3
      · have n4 : ¬ ((670000:ℚ) < g) := not_lt.2 h3
        have n5 : ¬ ((937900:ℚ) < g) := by push_neg; linarith
        have n6 : ¬ ((1350000:ℚ) < g) := by push_neg; linarith
        have e0 : min g (208050:ℚ) = 208050 := min_eq_right (by linarith)
        have e1 : min g (292850:ℚ) = 292850 := min_eq_right (le_of_lt h2)
        have e2 : min g (670000:ℚ) = g := min_eq_left h3
        have e3 : min g (937900:ℚ) = g := min_eq_left (by linarith)
        have e4 : min g (1350000:ℚ) = g := min_eq_left (by linarith)
        have t2 : (0:ℚ) < g - 292850 := by linarith
        have mm2 : max (0:ℚ) (g - 292850) = g - 292850 := max_eq_right (by linarith)
        have m3 : max (0:ℚ) (g - 670000) = 0 := max_eq_left (by linarith)
        have m4 : max (0:ℚ) (g - 937900) = 0 := max_eq_left (by linarith)
        have m5 : max (0:ℚ) (g - 1350000) = 0 := max_eq_left (by linarith)
        norm_num [PROGRESSIVE_TAX_BRACKETS, progLoop, progStep, minInf, breakdown1,
          progRaw, slice, sliceTop, hg, h1, h2, n4, n5, n6, e0, e1, e2, e3, e4,
          t2, mm2, m3, m4, m5]
      · rcases le_or_lt g 937900 with h4 | h4
        · have n5 : ¬ ((937900:ℚ) < g) := not_lt.2 h4
          have n6 : ¬ ((1350000:ℚ) < g) := by push_neg; linarith
          have e0 : min g (208050:ℚ) = 208050 := min_eq_right (by linarith)
          have e1 : min g (292850:ℚ) = 292850 := min_eq_right (by linarith)
          have e2 : min g (670000:ℚ) = 670000 := min_eq_right (le_of_lt h3)
          have e3 : min g (937900:ℚ) = g := min_eq_left h4
          have e4 : min g (1350000:ℚ) = g := min_eq_left (by linarith)
          have t3 : (0:ℚ) < g - 670000 := by linarith
          have mm3 : max (0:ℚ) (g - 670000) = g - 670000 := max_eq_right (by linarith)
          have m4 : max (0:ℚ) (g - 937900) = 0 := max_eq_left (by linarith)
          have m5 : max (0:ℚ) (g - 1350000) = 0 := max_eq_left (by linarith)
          norm_num [PROGRESSIVE_TAX_BRACKETS, progLoop, progStep, minInf, breakdown1,
            progRaw, slice, sliceTop, hg, h1, h2, h3, n5, n6, e0, e1, e2, e3, e4,
            t3, mm3, m4, m5]
        · rcases le_or_lt g 1350000 with h5 | h5
          · have n6 : ¬ ((1350000:ℚ) < g) := not_lt.2 h5
            have e0 : min g (208050:ℚ) = 208050 := min_eq_right (by linarith)
            have e1 : min g (292850:ℚ) = 292850 := min_eq_right (by linarith)
            have e2 : min g (670000:ℚ) = 670000 := min_eq_right (by linarith)
            have e3 : min g (937900:ℚ) = 937900 := min_eq_right (le_of_lt h4)
            have e4 : min g (1350000:ℚ) = g := min_eq_left h5
            have t4 : (0:ℚ) < g - 937900 := by linarith
            have mm4 : max (0:ℚ) (g - 937900) = g - 937900 := max_eq_right (by linarith)
            have m5 : max (0:ℚ) (g - 1350000) = 0 := max_eq_left (by linarith)
            norm_num [PROGRESSIVE_TAX_BRACKETS, progLoop, progStep, minInf, breakdown1,
              progRaw, slice, sliceTop, hg, h1, h2, h3, h4, n6, e0, e1, e2, e3, e4,
              t4, mm4, m5]
          · have e0 : min g (208050:ℚ) = 208050 := min_eq_right (by linarith)
            have e1 : min g (292850:ℚ) = 292850 := min_eq_right (by linarith)
            have e2 : min g (670000:ℚ) = 670000 := min_eq_right (by linarith)
            have e3 : min g (937900:ℚ) = 937900 := min_eq_right (by linarith)
            have e4 : min g (1350000:ℚ) = 1350000 := min_eq_right (le_of_lt h5)
            have t5 : (0:ℚ) < g - 1350000 := by linarith
            have mm5 : max (0:ℚ) (g - 1350000) = g - 1350000 := max_eq_right (by linarith)
            norm_num [PROGRESSIVE_TAX_BRACKETS, progLoop, progStep, minInf, breakdown1,
              progRaw, slice, sliceTop, hg, h1, h2, h3, h4, h5, e0, e1, e2, e3, e4,
              t5, mm5]

/-- Characterization of the first formulation on positive income: every
field is the once-rounded value of the corresponding raw sum, and the
breakdown is `breakdown1`. -/
lemma calcV1_eq (g : ℚ) (hg : 0 < g) :
    calculateNorwegianTaxV1 g =
      { totalTax := (jsRound (pre1 g) : ℤ),
        details :=
          { projectedGross := g,
            socialSecurityContribution := (jsRound (ssRaw g) : ℤ),
            generalTaxableIncome := (jsRound (gtiRaw g) : ℤ),
            generalTax := (jsRound (gtRaw g) : ℤ),
            progressiveTax := (jsRound (progRaw g) : ℤ),
            progressiveTaxBreakdown := breakdown1 g } } := by
  have hng : ¬ (g ≤ 0) := not_le.2 hg
  simp only [calculateNorwegianTaxV1, if_neg hng, progLoop_eq g hg,
    pre1, ssRaw, gtiRaw, gtRaw, standardDeductionRaw]

/-- Raw total of the second formulation before rounding: the source's
if/else-if chain of combined marginal rates. -/
def pre2 (g : ℚ) : ℚ :=
  if g ≤ 198349 then
    g * 0.22
  else if g ≤ 279149 then
    198349 * 0.22 + (g - 198349) * 0.237
  else if g ≤ 642949 then
    198349 * 0.22 + (279149 - 198349) * 0.237 + (g - 279149) * 0.26
  else if g ≤ 926799 then
    198349 * 0.22 + (279149 - 198349) * 0.237 + (642949 - 279149) * 0.26 +
      (g - 642949) * 0.355
  else if g ≤ 1499999 then
    198349 * 0.22 + (279149 - 198349) * 0.237 + (642949 - 279149) * 0.26 +
      (926799 - 642949) * 0.355 + (g - 926799) * 0.385
  else
    198349 * 0.22 + (279149 - 198349) * 0.237 + (642949 - 279149) * 0.26 +
      (926799 - 642949) * 0.355 + (1499999 - 926799) * 0.385 +
      (g - 1499999) * 0.175

/-- Characterization of the second formulation on positive income: the total
is the once-rounded value of `pre2`, and the entire itemized breakdown is
zero except for the echoed gross income. -/
lemma calcV2_eq (g : ℚ) (hg : 0 < g) :
    calculateNorwegianTaxV2 g =
      { totalTax := (jsRound (pre2 g) : ℤ),
        details :=
          { projectedGross := g,
            socialSecurityContribution := 0,
            generalTaxableIncome := 0,
            generalTax := 0,
            progressiveTax := 0,
            progressiveTaxBreakdown := [] } } := by
  have hng : ¬ (g ≤ 0) := not_le.2 hg
  simp only [calculateNorwegianTaxV2, if_neg hng, pre2]

/-- The marginal-sum reading of the second formulation's bracket table, as
stated in the specification: the tax contributed by bracket `i` is
`rate_i * max(0, min(g, upperBound_i) - upperBound_(i-1))` with
`upperBound_0 = 0`, summed over the table `(198349, 0.22), (279149, 0.237),
(642949, 0.26), (926799, 0.355), (1499999, 0.385), (unbounded, 0.175)`. -/
def marginalSum (g : ℚ) : ℚ :=
  0.22 * max 0 (min g 198349 - 0) + 0.237 * max 0 (min g 279149 - 198349) +
    0.26 * max 0 (min g 642949 - 279149) + 0.355 * max 0 (min g 926799 - 642949) +
    0.385 * max 0 (min g 1499999 - 926799) + 0.175 * max 0 (g - 1499999)

/-- The if/else-if chain of the second formulation computes exactly the
specification's marginal sum, for positive income. -/
lemma pre2_eq_marginalSum (g : ℚ) (hg : 0 < g) : pre2 g = marginalSum g := by
  unfold pre2 marginalSum
  rcases le_or_lt g 198349 with h1 | h1
  · have e1 : min g (198349:ℚ) = g := min_eq_left h1
    have e2 : min g (279149:ℚ) = g := min_eq_left (by linarith)
    have e3 : min g (642949:ℚ) = g := min_eq_left (by linarith)
    have e4 : min g (926799:ℚ) = g := min_eq_left (by linarith)
    have e5 : min g (1499999:ℚ) = g := min_eq_left (by linarith)
    have mg : max (0:ℚ) (g - 0) = g := by
      rw [sub_zero]; exact max_eq_right (le_of_lt hg)
    have m2 : max (0:ℚ) (g - 198349) = 0 := max_eq_left (by linarith)
    have m3 : max (0:ℚ) (g - 279149) = 0 := max_eq_left (by linarith)
    have m4 : max (0:ℚ) (g - 642949) = 0 := max_eq_left (by linarith)
    have m5 : max (0:ℚ) (g - 926799) = 0 := max_eq_left (by linarith)
    have m6 : max (0:ℚ) (g - 1499999) = 0 := max_eq_left (by linarith)
    rw [if_pos h1, e1, e2, e3, e4, e5, mg, m2, m3, m4, m5, m6]; ring
  · rcases le_or_lt g 279149 with h2 | h2
    · have e1 : min g (198349:ℚ) = 198349 := min_eq_right (le_of_lt h1)
      have e2 : min g (279149:ℚ) = g := min_eq_left h2
      have e3 : min g (642949:ℚ) = g := min_eq_left (by linarith)
      have e4 : min g (926799:ℚ) = g := min_eq_left (by linarith)
      have e5 : min g (1499999:ℚ) = g := min_eq_left (by linarith)
      have m2 : max (0:ℚ) (g - 198349) = g - 198349 := max_eq_right (by linarith)
      have m3 : max (0:ℚ) (g - 279149) = 0 := max_eq_left (by linarith)
      have m4 : max (0:ℚ) (g - 642949) = 0 := max_eq_left (by linarith)
      have m5 : max (0:ℚ) (g - 926799) = 0 := max_eq_left (by linarith)
      have m6 : max (0:ℚ) (g - 1499999) = 0 := max_eq_left (by linarith)
      rw [if_neg (not_le.2 h1), if_pos h2, e1, e2, e3, e4, e5, m2, m3, m4, m5, m6]
      norm_num; ring
    · rcases le_or_lt g 642949 with h3 | h3
      · have e1 : min g (198349:ℚ) = 198349 := min_eq_right (by linarith)
        have e2 : min g (279149:ℚ) = 279149 := min_eq_right (le_of_lt h2)
        have e3 : min g (642949:ℚ) = g := min_eq_left h3
        have e4 : min g (926799:ℚ) = g := min_eq_left (by linarith)
        have e5 : min g (1499999:ℚ) = g := min_eq_left (by linarith)
        have m3 : max (0:ℚ) (g - 279149) = g - 279149 := max_eq_right (by linarith)
        have m4 : max (0:ℚ) (g - 642949) = 0 := max_eq_left (by linarith)
        have m5 : max (0:ℚ) (g - 926799) = 0 := max_eq_left (by linarith)
        have m6 : max (0:ℚ) (g - 1499999) = 0 := max_eq_left (by linarith)
        rw [if_neg (not_le.2 h1), if_neg (not_le.2 h2), if_pos h3,
          e1, e2, e3, e4, e5, m3, m4, m5, m6]
        norm_num; ring
      · rcases le_or_lt g 926799 with h4 | h4
        · have e1 : min g (198349:ℚ) = 198349 := min_eq_right (by linarith)
          have e2 : min g (279149:ℚ) = 279149 := min_eq_right (by linarith)
          have e3 : min g (642949:ℚ) = 642949 := min_eq_right (le_of_lt h3)
          have e4 : min g (926799:ℚ) = g := min_eq_left h4
          have e5 : min g (1499999:ℚ) = g := min_eq_left (by linarith)
          have m4 : max (0:ℚ) (g - 642949) = g - 642949 := max_eq_right (by linarith)
          have m5 : max (0:ℚ) (g - 926799) = 0 := max_eq_left (by linarith)
          have m6 : max (0:ℚ) (g - 1499999) = 0 := max_eq_left (by linarith)
          rw [if_neg (not_le.2 h1), if_neg (not_le.2 h2), if_neg (not_le.2 h3),
            if_pos h4, e1, e2, e3, e4, e5, m4, m5, m6]
          norm_num; ring
        · rcases le_or_lt g 1499999 with h5 | h5
          · have e1 : min g (198349:ℚ) = 198349 := min_eq_right (by linarith)
            have e2 : min g (279149:ℚ) = 279149 := min_eq_right (by linarith)
            have e3 : min g (642949:ℚ) = 642949 := min_eq_right (by linarith)
            have e4 : min g (926799:ℚ) = 926799 := min_eq_right (le_of_lt h4)
            have e5 : min g (1499999:ℚ) = g := min_eq_left h5
            have m5 : max (0:ℚ) (g - 926799) = g - 926799 := max_eq_right (by linarith)
            have m6 : max (0:ℚ) (g - 1499999) = 0 := max_eq_left (by linarith)
            rw [if_neg (not_le.2 h1), if_neg (not_le.2 h2), if_neg (not_le.2 h3),
              if_neg (not_le.2 h4), if_pos h5, e1, e2, e3, e4, e5, m5, m6]
            norm_num; ring
          · have e1 : min g (198349:ℚ) = 198349 := min_eq_right (by linarith)
            have e2 : min g (279149:ℚ) = 279149 := min_eq_right (by linarith)
            have e3 : min g (642949:ℚ) = 642949 := min_eq_right (by linarith)
            have e4 : min g (926799:ℚ) = 926799 := min_eq_right (by linarith)
            have e5 : min g (1499999:ℚ) = 1499999 := min_eq_right (le_of_lt h5)
            have m6 : max (0:ℚ) (g - 1499999) = g - 1499999 := max_eq_right (by linarith)
            rw [if_neg (not_le.2 h1), if_neg (not_le.2 h2), if_neg (not_le.2 h3),
              if_neg (not_le.2 h4), if_neg (not_le.2 h5), e1, e2, e3, e4, e5, m6]
            norm_num; ring

/-- Rounding is monotone. -/
lemma jsRound_mono {x y : ℚ} (h : x ≤ y) : jsRound x ≤ jsRound y :=
  Int.floor_le_floor (by linarith)

/-- Rounding a nonnegative value is nonnegative. -/
lemma jsRound_nonneg {x : ℚ} (h : 0 ≤ x) : 0 ≤ jsRound x :=
  Int.le_floor.2 (by push_cast; linarith)

/-- The rounded value is within a half unit of its argument. -/
lemma jsRound_bounds (x : ℚ) :
    x - 1/2 < ((jsRound x : ℤ) : ℚ) ∧ ((jsRound x : ℤ) : ℚ) ≤ x + 1/2 := by
  unfold jsRound
  constructor
  · have h := Int.lt_floor_add_one (x + 1/2)
    push_cast at h ⊢
    linarith
  · exact Int.floor_le _

/-- Income slices are monotone in the income. -/
lemma slice_mono {g1 g2 : ℚ} (h : g1 ≤ g2) (lo hi : ℚ) :
    slice g1 lo hi ≤ slice g2 lo hi :=
  max_le_max le_rfl (sub_le_sub_right (min_le_min h le_rfl) lo)

/-- Top slices are monotone in the income. -/
lemma sliceTop_mono {g1 g2 : ℚ} (h : g1 ≤ g2) (lo : ℚ) :
    sliceTop g1 lo ≤ sliceTop g2 lo :=
  max_le_max le_rfl (sub_le_sub_right h lo)

/-- Income slices are nonnegative. -/
lemma slice_nonneg (g lo hi : ℚ) : 0 ≤ slice g lo hi := le_max_left _ _

/-- Top slices are nonnegative. -/
lemma sliceTop_nonneg (g lo : ℚ) : 0 ≤ sliceTop g lo := le_max_left _ _

/-- Income net of the capped standard deduction is monotone (the deduction
grows at rate 0.46 < 1 until its cap). -/
lemma subDeduction_mono {g1 g2 : ℚ} (h : g1 ≤ g2) :
    g1 - standardDeductionRaw g1 ≤ g2 - standardDeductionRaw g2 := by
  unfold standardDeductionRaw STANDARD_DEDUCTION_RATE STANDARD_DEDUCTION_MAX
  rcases min_cases (g1 * (0.46:ℚ)) 104450 with ⟨e1, l1⟩ | ⟨e1, l1⟩ <;>
    rcases min_cases (g2 * (0.46:ℚ)) 104450 with ⟨e2, l2⟩ | ⟨e2, l2⟩ <;>
    rw [e1, e2] <;> linarith

/-- General taxable income is monotone in gross income. -/
lemma gtiRaw_mono {g1 g2 : ℚ} (h : g1 ≤ g2) : gtiRaw g1 ≤ gtiRaw g2 := by
  unfold gtiRaw
  exact max_le_max le_rfl (sub_le_sub_right (subDeduction_mono h) _)

/-- The raw progressive tax is monotone in gross income. -/
lemma progRaw_mono {g1 g2 : ℚ} (h : g1 ≤ g2) : progRaw g1 ≤ progRaw g2 := by
  unfold progRaw
  have r1 := mul_le_mul_of_nonneg_right (slice_mono h 208050 292850)
    (by norm_num : (0:ℚ) ≤ 0.017)
  have r2 := mul_le_mul_of_nonneg_right (slice_mono h 292850 670000)
    (by norm_num : (0:ℚ) ≤ 0.040)
  have r3 := mul_le_mul_of_nonneg_right (slice_mono h 670000 937900)
    (by norm_num : (0:ℚ) ≤ 0.136)
  have r4 := mul_le_mul_of_nonneg_right (slice_mono h 937900 1350000)
    (by norm_num : (0:ℚ) ≤ 0.176)
  have r5 := mul_le_mul_of_nonneg_right (sliceTop_mono h 1350000)
    (by norm_num : (0:ℚ) ≤ 0.178)
  linarith

/-- The raw total of the first formulation is monotone in gross income. -/
lemma pre1_mono {g1 g2 : ℚ} (h : g1 ≤ g2) : pre1 g1 ≤ pre1 g2 := by
  unfold pre1 ssRaw gtRaw
  have r1 := mul_le_mul_of_nonneg_right h
    (by norm_num [SOCIAL_SECURITY_RATE] : (0:ℚ) ≤ SOCIAL_SECURITY_RATE)
  have r2 := mul_le_mul_of_nonneg_right (gtiRaw_mono h)
    (by norm_num [GENERAL_TAX_RATE] : (0:ℚ) ≤ GENERAL_TAX_RATE)
  have r3 := progRaw_mono h
  linarith

/-- The raw total of the first formulation is nonnegative on nonnegative
income. -/
lemma pre1_nonneg {g : ℚ} (h : 0 ≤ g) : 0 ≤ pre1 g := by
  unfold pre1 ssRaw gtRaw progRaw
  have r1 : (0:ℚ) ≤ g * SOCIAL_SECURITY_RATE :=
    mul_nonneg h (by norm_num [SOCIAL_SECURITY_RATE])
  have r2 : (0:ℚ) ≤ gtiRaw g * GENERAL_TAX_RATE :=
    mul_nonneg (le_max_left _ _) (by norm_num [GENERAL_TAX_RATE])
  have s1 := mul_nonneg (slice_nonneg g 208050 292850) (by norm_num : (0:ℚ) ≤ 0.017)
  have s2 := mul_nonneg (slice_nonneg g 292850 670000) (by norm_num : (0:ℚ) ≤ 0.040)
  have s3 := mul_nonneg (slice_nonneg g 670000 937900) (by norm_num : (0:ℚ) ≤ 0.136)
  have s4 := mul_nonneg (slice_nonneg g 937900 1350000) (by norm_num : (0:ℚ) ≤ 0.176)
  have s5 := mul_nonneg (sliceTop_nonneg g 1350000) (by norm_num : (0:ℚ) ≤ 0.178)
  have hgti : gtiRaw g * GENERAL_TAX_RATE = max 0 (g - standardDeductionRaw g - PERSONAL_ALLOWANCE) * GENERAL_TAX_RATE := by
    rw [gtiRaw]
  linarith [hgti ▸ r2]

/-- The specification's marginal sum for the second table is monotone. -/
lemma marginalSum_mono {g1 g2 : ℚ} (h : g1 ≤ g2) : marginalSum g1 ≤ marginalSum g2 := by
  unfold marginalSum
  have b1 : max (0:ℚ) (min g1 198349 - 0) ≤ max 0 (min g2 198349 - 0) :=
    max_le_max le_rfl (sub_le_sub_right (min_le_min h le_rfl) 0)
  have b2 : max (0:ℚ) (min g1 279149 - 198349) ≤ max 0 (min g2 279149 - 198349) :=
    max_le_max le_rfl (sub_le_sub_right (min_le_min h le_rfl) _)
  have b3 : max (0:ℚ) (min g1 642949 - 279149) ≤ max 0 (min g2 642949 - 279149) :=
    max_le_max le_rfl (sub_le_sub_right (min_le_min h le_rfl) _)
  have b4 : max (0:ℚ) (min g1 926799 - 642949) ≤ max 0 (min g2 926799 - 642949) :=
    max_le_max le_rfl (sub_le_sub_right (min_le_min h le_rfl) _)
  have b5 : max (0:ℚ) (min g1 1499999 - 926799) ≤ max 0 (min g2 1499999 - 926799) :=
    max_le_max le_rfl (sub_le_sub_right (min_le_min h le_rfl) _)
  have b6 : max (0:ℚ) (g1 - 1499999) ≤ max 0 (g2 - 1499999) :=
    max_le_max le_rfl (sub_le_sub_right h _)
  have r1 := mul_le_mul_of_nonneg_left b1 (by norm_num : (0:ℚ) ≤ 0.22)
  have r2 := mul_le_mul_of_nonneg_left b2 (by norm_num : (0:ℚ) ≤ 0.237)
  have r3 := mul_le_mul_of_nonneg_left b3 (by norm_num : (0:ℚ) ≤ 0.26)
  have r4 := mul_le_mul_of_nonneg_left b4 (by norm_num : (0:ℚ) ≤ 0.355)
  have r5 := mul_le_mul_of_nonneg_left b5 (by norm_num : (0:ℚ) ≤ 0.385)
  have r6 := mul_le_mul_of_nonneg_left b6 (by norm_num : (0:ℚ) ≤ 0.175)
  linarith

/-- The specification's marginal sum is nonnegative. -/
lemma marginalSum_nonneg (g : ℚ) : 0 ≤ marginalSum g := by
  unfold marginalSum
  have r1 := mul_nonneg (by norm_num : (0:ℚ) ≤ 0.22) (le_max_left 0 (min g 198349 - 0))
  have r2 := mul_nonneg (by norm_num : (0:ℚ) ≤ 0.237) (le_max_left 0 (min g 279149 - 198349))
  have r3 := mul_nonneg (by norm_num : (0:ℚ) ≤ 0.26) (le_max_left 0 (min g 642949 - 279149))
  have r4 := mul_nonneg (by norm_num : (0:ℚ) ≤ 0.355) (le_max_left 0 (min g 926799 - 642949))
  have r5 := mul_nonneg (by norm_num : (0:ℚ) ≤ 0.385) (le_max_left 0 (min g 1499999 - 926799))
  have r6 := mul_nonneg (by norm_num : (0:ℚ) ≤ 0.175) (le_max_left 0 (g - 1499999))
  linarith

/-- The all-zero result returned for non-positive income by both
formulations. -/
def zeroResult : TaxCalculationResult :=
  { totalTax := 0,
    details :=
      { projectedGross := 0,
        socialSecurityContribution := 0,
        generalTaxableIncome := 0,
        generalTax := 0,
        progressiveTax := 0,
        progressiveTaxBreakdown := [] } }

/-- The sum of the tax-amount fields of the itemized breakdown (the fields
of `details` that represent amounts of tax, as opposed to the echoed gross
income and the intermediate taxable-income figure). -/
def detailsTaxSum (r : TaxCalculationResult) : ℚ :=
  r.details.socialSecurityContribution + r.details.generalTax +
    r.details.progressiveTax

/-- The total of the first formulation on positive income, as a rounded
raw total. -/
lemma totalTaxV1 (g : ℚ) (hg : 0 < g) :
    (calculateNorwegianTaxV1 g).totalTax = ((jsRound (pre1 g) : ℤ) : ℚ) := by
  rw [calcV1_eq g hg]

/-- The total of the second formulation on positive income, as a rounded
raw total. -/
lemma totalTaxV2 (g : ℚ) (hg : 0 < g) :
    (calculateNorwegianTaxV2 g).totalTax = ((jsRound (pre2 g) : ℤ) : ℚ) := by
  rw [calcV2_eq g hg]

/-- C1: for every input `grossIncome ≤ 0` (including negative values),
`calculateNorwegianTax` — in both historical formulations — returns a result
with `totalTax = 0` and an all-zero/empty breakdown (every `details` field
is 0 and `progressiveTaxBreakdown` is the empty list). -/
theorem claim_C1_nonpositive_floor (g : ℚ) (hg : g ≤ 0) :
    calculateNorwegianTaxV1 g = zeroResult ∧ calculateNorwegianTaxV2 g = zeroResult := by
  constructor
  · simp [calculateNorwegianTaxV1, if_pos hg, zeroResult]
  · simp [calculateNorwegianTaxV2, if_pos hg, zeroResult]

/-- Witness for C1 at the concrete input -7. -/
theorem claim_C1_witness :
    (-7 : ℚ) ≤ 0 ∧
      (calculateNorwegianTaxV1 (-7) = zeroResult ∧ calculateNorwegianTaxV2 (-7) = zeroResult) :=
  ⟨by norm_num, claim_C1_nonpositive_floor (-7) (by norm_num)⟩

/-- C2: `calculateNorwegianTax` is monotonically non-decreasing in its
input: for all `0 ≤ g1 ≤ g2`, the `totalTax` at `g1` is at most the
`totalTax` at `g2`, in each of the two historical formulations. -/
theorem claim_C2_monotone (g1 g2 : ℚ) (h0 : 0 ≤ g1) (h12 : g1 ≤ g2) :
    (calculateNorwegianTaxV1 g1).totalTax ≤ (calculateNorwegianTaxV1 g2).totalTax ∧
      (calculateNorwegianTaxV2 g1).totalTax ≤ (calculateNorwegianTaxV2 g2).totalTax := by
  rcases h0.lt_or_eq with hpos | hzero
  · have h2 : 0 < g2 := lt_of_lt_of_le hpos h12
    have hp2 : pre2 g1 ≤ pre2 g2 := by
      rw [pre2_eq_marginalSum g1 hpos, pre2_eq_marginalSum g2 h2]
      exact marginalSum_mono h12
    rw [totalTaxV1 g1 hpos, totalTaxV1 g2 h2, totalTaxV2 g1 hpos, totalTaxV2 g2 h2]
    constructor
    · exact_mod_cast jsRound_mono (pre1_mono h12)
    · exact_mod_cast jsRound_mono hp2
  · rcases (hzero ▸ h12 : (0:ℚ) ≤ g2).lt_or_eq with h2 | h2
    · have hv1 : (calculateNorwegianTaxV1 g1).totalTax = 0 := by
        norm_num [calculateNorwegianTaxV1, if_pos (le_of_eq hzero.symm)]
      have hv2 : (calculateNorwegianTaxV2 g1).totalTax = 0 := by
        norm_num [calculateNorwegianTaxV2, if_pos (le_of_eq hzero.symm)]
      have hpre2 : 0 ≤ pre2 g2 := by
        rw [pre2_eq_marginalSum g2 h2]; exact marginalSum_nonneg g2
      rw [hv1, hv2, totalTaxV1 g2 h2, totalTaxV2 g2 h2]
      constructor
      · exact_mod_cast jsRound_nonneg (pre1_nonneg (le_of_lt h2))
      · exact_mod_cast jsRound_nonneg hpre2
    · have hgg : g1 = g2 := by rw [← hzero, ← h2]
      rw [hgg]
      exact ⟨le_rfl, le_rfl⟩

/-- Witness for C2 at the concrete inputs 1 and 2. -/
theorem claim_C2_witness :
    (0 : ℚ) ≤ 1 ∧ (1 : ℚ) ≤ 2 ∧
      ((calculateNorwegianTaxV1 1).totalTax ≤ (calculateNorwegianTaxV1 2).totalTax ∧
        (calculateNorwegianTaxV2 1).totalTax ≤ (calculateNorwegianTaxV2 2).totalTax) :=
  ⟨by norm_num, by norm_num, claim_C2_monotone 1 2 (by norm_num) (by norm_num)⟩

/-- C3: at an input exactly equal to a bracket's upper limit, the next
bracket's marginal rate contributes nothing: at each finite bracket boundary
of the first formulation the progressive component equals the rounded
marginal sum over the brackets up to that boundary (0 at 208050), and at
each finite boundary of the second formulation `totalTax` equals the rounded
marginal sum over its brackets up to that boundary (in particular
`round(198349 * 0.22)` at 198349). -/
theorem claim_C3_bracket_boundaries :
    (calculateNorwegianTaxV1 208050).details.progressiveTax = 0 ∧
    (calculateNorwegianTaxV1 292850).details.progressiveTax =
      ((jsRound ((292850 - 208050) * 0.017) : ℤ) : ℚ) ∧
    (calculateNorwegianTaxV1 670000).details.progressiveTax =
      ((jsRound ((292850 - 208050) * 0.017 + (670000 - 292850) * 0.040) : ℤ) : ℚ) ∧
    (calculateNorwegianTaxV1 937900).details.progressiveTax =
      ((jsRound ((292850 - 208050) * 0.017 + (670000 - 292850) * 0.040 +
        (937900 - 670000) * 0.136) : ℤ) : ℚ) ∧
    (calculateNorwegianTaxV1 1350000).details.progressiveTax =
      ((jsRound ((292850 - 208050) * 0.017 + (670000 - 292850) * 0.040 +
        (937900 - 670000) * 0.136 + (1350000 - 937900) * 0.176) : ℤ) : ℚ) ∧
    (calculateNorwegianTaxV2 198349).totalTax = ((jsRound (198349 * 0.22) : ℤ) : ℚ) ∧
    (calculateNorwegianTaxV2 279149).totalTax =
      ((jsRound (198349 * 0.22 + (279149 - 198349) * 0.237) : ℤ) : ℚ) ∧
    (calculateNorwegianTaxV2 642949).totalTax =
      ((jsRound (198349 * 0.22 + (279149 - 198349) * 0.237 +
        (642949 - 279149) * 0.26) : ℤ) : ℚ) ∧
    (calculateNorwegianTaxV2 926799).totalTax =
      ((jsRound (198349 * 0.22 + (279149 - 198349) * 0.237 + (642949 - 279149) * 0.26 +
        (926799 - 642949) * 0.355) : ℤ) : ℚ) ∧
    (calculateNorwegianTaxV2 1499999).totalTax =
      ((jsRound (198349 * 0.22 + (279149 - 198349) * 0.237 + (642949 - 279149) * 0.26 +
        (926799 - 642949) * 0.355 + (1499999 - 926799) * 0.385) : ℤ) : ℚ) := by
  refine ⟨?_, ?_, ?_, ?_, ?_, ?_, ?_, ?_, ?_, ?_⟩ <;>
    norm_num [calculateNorwegianTaxV1, calculateNorwegianTaxV2, progLoop, progStep,
      PROGRESSIVE_TAX_BRACKETS, minInf, jsRound, SOCIAL_SECURITY_RATE,
      GENERAL_TAX_RATE, PERSONAL_ALLOWANCE, STANDARD_DEDUCTION_RATE,
      STANDARD_DEDUCTION_MAX]

/-- C4 counterexample: at the positive input 100, the second formulation
returns a breakdown in which every entry is zero — so the sum of the
non-zero breakdown entries is 0 — while `totalTax` is 22; the difference
exceeds the claimed ±1 tolerance. -/
theorem claim_C4_counterexample :
    (0 : ℚ) < 100 ∧
      (calculateNorwegianTaxV2 100).details.socialSecurityContribution = 0 ∧
      (calculateNorwegianTaxV2 100).details.generalTaxableIncome = 0 ∧
      (calculateNorwegianTaxV2 100).details.generalTax = 0 ∧
      (calculateNorwegianTaxV2 100).details.progressiveTax = 0 ∧
      (calculateNorwegianTaxV2 100).details.progressiveTaxBreakdown = [] ∧
      detailsTaxSum (calculateNorwegianTaxV2 100) = 0 ∧
      (calculateNorwegianTaxV2 100).totalTax = 22 ∧
      ¬ |(0 : ℚ) - (calculateNorwegianTaxV2 100).totalTax| ≤ 1 := by
  norm_num [calculateNorwegianTaxV2, jsRound, detailsTaxSum]

/-- C4 amended: for positive income, in the first formulation the sum of
the tax-amount breakdown fields (`socialSecurityContribution + generalTax +
progressiveTax`; zero entries contribute nothing) equals `totalTax` within
±1 unit; in the second formulation every breakdown entry is zero, so that
sum is 0 regardless of `totalTax`. -/
theorem claim_C4_breakdown_sums (g : ℚ) (hg : 0 < g) :
    |detailsTaxSum (calculateNorwegianTaxV1 g) - (calculateNorwegianTaxV1 g).totalTax| ≤ 1 ∧
      detailsTaxSum (calculateNorwegianTaxV2 g) = 0 := by
  constructor
  · obtain ⟨a1, a2⟩ := jsRound_bounds (ssRaw g)
    obtain ⟨b1, b2⟩ := jsRound_bounds (gtRaw g)
    obtain ⟨c1, c2⟩ := jsRound_bounds (progRaw g)
    obtain ⟨d1, d2⟩ := jsRound_bounds (pre1 g)
    have hdef : pre1 g = ssRaw g + gtRaw g + progRaw g := rfl
    have hub : ((jsRound (ssRaw g) + jsRound (gtRaw g) + jsRound (progRaw g) -
        jsRound (pre1 g) : ℤ) : ℚ) < 2 := by
      push_cast
      linarith
    have hlb : (-2 : ℚ) < ((jsRound (ssRaw g) + jsRound (gtRaw g) + jsRound (progRaw g) -
        jsRound (pre1 g) : ℤ) : ℚ) := by
      push_cast
      linarith
    have hubZ : jsRound (ssRaw g) + jsRound (gtRaw g) + jsRound (progRaw g) -
        jsRound (pre1 g) < 2 := by exact_mod_cast hub
    have hlbZ : (-2 : ℤ) < jsRound (ssRaw g) + jsRound (gtRaw g) + jsRound (progRaw g) -
        jsRound (pre1 g) := by exact_mod_cast hlb
    have key : |jsRound (ssRaw g) + jsRound (gtRaw g) + jsRound (progRaw g) -
        jsRound (pre1 g)| ≤ 1 := by
      rw [abs_le]
      omega
    rw [calcV1_eq g hg]
    simp only [detailsTaxSum]
    exact_mod_cast key
  · rw [calcV2_eq g hg]
    simp [detailsTaxSum]

/-- Witness for the amended C4 at the concrete input 500000. -/
theorem claim_C4_witness :
    (0 : ℚ) < 500000 ∧
      (|detailsTaxSum (calculateNorwegianTaxV1 500000) -
          (calculateNorwegianTaxV1 500000).totalTax| ≤ 1 ∧
        detailsTaxSum (calculateNorwegianTaxV2 500000) = 0) :=
  ⟨by norm_num, claim_C4_breakdown_sums 500000 (by norm_num)⟩

/-- C5 counterexample: at the input 250000 the first formulation's
`progressiveTaxBreakdown` holds exactly one per-bracket amount, 713.15,
which is not an integer — the per-bracket amounts are not rounded. -/
theorem claim_C5_counterexample :
    (calculateNorwegianTaxV1 250000).details.progressiveTaxBreakdown.map
        BreakdownEntry.tax = [(713.15 : ℚ)] ∧
      ¬ ∃ n : ℤ, ((713.15 : ℚ)) = (n : ℚ) := by
  constructor
  · norm_num [calculateNorwegianTaxV1, progLoop, progStep, PROGRESSIVE_TAX_BRACKETS,
      minInf, SOCIAL_SECURITY_RATE, GENERAL_TAX_RATE, PERSONAL_ALLOWANCE,
      STANDARD_DEDUCTION_RATE, STANDARD_DEDUCTION_MAX]
  · rintro ⟨n, hn⟩
    have h2 : (20 : ℚ) * 713.15 = 20 * (n : ℚ) := by rw [hn]
    have h3 : ((14263 : ℤ) : ℚ) = ((20 * n : ℤ) : ℚ) := by push_cast; linarith
    have h4 : (14263 : ℤ) = 20 * n := by exact_mod_cast h3
    omega

/-- C5 amended: for positive income, `totalTax` and the numeric `details`
fields are each a single `Math.round` applied after that field's summation
of raw (unrounded) components, so each of them is an integer; the
per-bracket amounts in `progressiveTaxBreakdown`, however, are the raw
unrounded bracket products (`breakdown1`), not integers in general. -/
theorem claim_C5_rounding_structure (g : ℚ) (hg : 0 < g) :
    (calculateNorwegianTaxV1 g).totalTax =
        ((jsRound (ssRaw g + gtRaw g + progRaw g) : ℤ) : ℚ) ∧
      (calculateNorwegianTaxV1 g).details.socialSecurityContribution =
        ((jsRound (ssRaw g) : ℤ) : ℚ) ∧
      (calculateNorwegianTaxV1 g).details.generalTaxableIncome =
        ((jsRound (gtiRaw g) : ℤ) : ℚ) ∧
      (calculateNorwegianTaxV1 g).details.generalTax = ((jsRound (gtRaw g) : ℤ) : ℚ) ∧
      (calculateNorwegianTaxV1 g).details.progressiveTax =
        ((jsRound (progRaw g) : ℤ) : ℚ) ∧
      (calculateNorwegianTaxV1 g).details.progressiveTaxBreakdown = breakdown1 g ∧
      (calculateNorwegianTaxV2 g).totalTax = ((jsRound (pre2 g) : ℤ) : ℚ) := by
  rw [calcV1_eq g hg, calcV2_eq g hg]
  exact ⟨rfl, rfl, rfl, rfl, rfl, rfl, rfl⟩

/-- Witness for the amended C5 at the concrete input 250000. -/
theorem claim_C5_witness :
    (0 : ℚ) < 250000 ∧
      ((calculateNorwegianTaxV1 250000).totalTax =
          ((jsRound (ssRaw 250000 + gtRaw 250000 + progRaw 250000) : ℤ) : ℚ) ∧
        (calculateNorwegianTaxV1 250000).details.socialSecurityContribution =
          ((jsRound (ssRaw 250000) : ℤ) : ℚ) ∧
        (calculateNorwegianTaxV1 250000).details.generalTaxableIncome =
          ((jsRound (gtiRaw 250000) : ℤ) : ℚ) ∧
        (calculateNorwegianTaxV1 250000).details.generalTax =
          ((jsRound (gtRaw 250000) : ℤ) : ℚ) ∧
        (calculateNorwegianTaxV1 250000).details.progressiveTax =
          ((jsRound (progRaw 250000) : ℤ) : ℚ) ∧
        (calculateNorwegianTaxV1 250000).details.progressiveTaxBreakdown =
          breakdown1 250000 ∧
        (calculateNorwegianTaxV2 250000).totalTax =
          ((jsRound (pre2 250000) : ℤ) : ℚ)) :=
  ⟨by norm_num, claim_C5_rounding_structure 250000 (by norm_num)⟩

/-- C6: for positive income, the second formulation's `totalTax` equals the
rounded piecewise marginal sum over the table `(198349, 0.22),
(279149, 0.237), (642949, 0.26), (926799, 0.355), (1499999, 0.385),
(unbounded, 0.175)`. -/
theorem claim_C6_marginal_formula (g : ℚ) (hg : 0 < g) :
    (calculateNorwegianTaxV2 g).totalTax = ((jsRound (marginalSum g) : ℤ) : ℚ) := by
  rw [totalTaxV2 g hg, pre2_eq_marginalSum g hg]

/-- Witness for C6 at the concrete input 300000. -/
theorem claim_C6_witness :
    (0 : ℚ) < 300000 ∧
      (calculateNorwegianTaxV2 300000).totalTax =
        ((jsRound (marginalSum 300000) : ℤ) : ℚ) :=
  ⟨by norm_num, claim_C6_marginal_formula 300000 (by norm_num)⟩

/-- C7: the two historical formulations are not numerically equivalent:
at the positive input 500000 the first returns 116834 while the second
returns 120208. -/
theorem claim_C7_not_equivalent :
    ∃ g : ℚ, 0 < g ∧
      (calculateNorwegianTaxV1 g).totalTax ≠ (calculateNorwegianTaxV2 g).totalTax := by
  refine ⟨500000, by norm_num, ?_⟩
  have h1 : (calculateNorwegianTaxV1 500000).totalTax = 116834 := by
    norm_num [calculateNorwegianTaxV1, progLoop, progStep, PROGRESSIVE_TAX_BRACKETS,
      minInf, jsRound, SOCIAL_SECURITY_RATE, GENERAL_TAX_RATE, PERSONAL_ALLOWANCE,
      STANDARD_DEDUCTION_RATE, STANDARD_DEDUCTION_MAX]
  have h2 : (calculateNorwegianTaxV2 500000).totalTax = 120208 := by
    norm_num [calculateNorwegianTaxV2, jsRound]
  rw [h1, h2]
  norm_num

/-- C8: at input 500000 the first formulation returns the independently
computed closed form from its constants, `round(0.079*500000 +
0.22*(500000 - min(0.46*500000, 104450) - 88250) + 0.017*(292850 - 208050)
+ 0.04*(500000 - 292850))`, which is 116834. -/
theorem claim_C8_concrete_500000 :
    (calculateNorwegianTaxV1 500000).totalTax =
        ((jsRound ((0.079 : ℚ) * 500000 +
          0.22 * (500000 - min ((0.46 : ℚ) * 500000) 104450 - 88250) +
          0.017 * (292850 - 208050) + 0.04 * (500000 - 292850)) : ℤ) : ℚ) ∧
      (calculateNorwegianTaxV1 500000).totalTax = 116834 := by
  constructor <;>
    norm_num [calculateNorwegianTaxV1, progLoop, progStep, PROGRESSIVE_TAX_BRACKETS,
      minInf, jsRound, SOCIAL_SECURITY_RATE, GENERAL_TAX_RATE, PERSONAL_ALLOWANCE,
      STANDARD_DEDUCTION_RATE, STANDARD_DEDUCTION_MAX]

/-- C9: both formulations return a normally constructed
`TaxCalculationResult` for every rational input; each is a total function
whose every path (the non-positive floor and every bracket branch) ends in
the explicit result below, with no partial operation anywhere. -/
theorem claim_C9_always_returns (g : ℚ) :
    calculateNorwegianTaxV1 g =
        (if g ≤ 0 then zeroResult
         else
           { totalTax := ((jsRound (pre1 g) : ℤ) : ℚ),
             details :=
               { projectedGross := g,
                 socialSecurityContribution := ((jsRound (ssRaw g) : ℤ) : ℚ),
                 generalTaxableIncome := ((jsRound (gtiRaw g) : ℤ) : ℚ),
                 generalTax := ((jsRound (gtRaw g) : ℤ) : ℚ),
                 progressiveTax := ((jsRound (progRaw g) : ℤ) : ℚ),
                 progressiveTaxBreakdown := breakdown1 g } }) ∧
      calculateNorwegianTaxV2 g =
        (if g ≤ 0 then zeroResult
         else
           { totalTax := ((jsRound (pre2 g) : ℤ) : ℚ),
             details :=
               { projectedGross := g,
                 socialSecurityContribution := 0,
                 generalTaxableIncome := 0,
                 generalTax := 0,
                 progressiveTax := 0,
                 progressiveTaxBreakdown := [] } }) := by
  rcases le_or_lt g 0 with h | h
  · rw [if_pos h, if_pos h]
    constructor
    · simp [calculateNorwegianTaxV1, if_pos h, zeroResult]
    · simp [calculateNorwegianTaxV2, if_pos h, zeroResult]
  · rw [if_neg (not_le.2 h), if_neg (not_le.2 h)]
    exact ⟨calcV1_eq g h, calcV2_eq g h⟩

/-- C10: in the second formulation the returned `details` carry no
information about the computed tax: `socialSecurityContribution`,
`generalTaxableIncome`, `generalTax` and `progressiveTax` are all 0,
`progressiveTaxBreakdown` is empty, and `projectedGross` merely echoes the
input (`g` when `0 < g`, else 0). -/
theorem claim_C10_v2_breakdown_empty (g : ℚ) :
    (calculateNorwegianTaxV2 g).details.socialSecurityContribution = 0 ∧
      (calculateNorwegianTaxV2 g).details.generalTaxableIncome = 0 ∧
      (calculateNorwegianTaxV2 g).details.generalTax = 0 ∧
      (calculateNorwegianTaxV2 g).details.progressiveTax = 0 ∧
      (calculateNorwegianTaxV2 g).details.progressiveTaxBreakdown = [] ∧
      (calculateNorwegianTaxV2 g).details.projectedGross = (if 0 < g then g else 0) := by
  rcases le_or_lt g 0 with h | h
  · simp [calculateNorwegianTaxV2, if_pos h, if_neg (not_lt.2 h)]
  · simp [calculateNorwegianTaxV2, if_neg (not_le.2 h), if_pos h]

end IncomeJournal
